import Mathlib

/-!
# Verification of the Nhaka document-restoration pipeline

Shallow embedding of the algorithmic core of `main.py`:
the validator's confidence aggregation and inconsistency detection,
the scanner's defect detection and conditional enhancement pipeline,
the orchestrator's stage sequencing, and the deduplication cache.

Machine reals from the Python source are modelled as rationals (`ℚ`);
byte values as `ℕ`; Python dicts as association lists or option-valued
structures mirroring the exact `context.get` defaults of the source.
-/

namespace Nhaka

/-! ## ValidatorAgent: confidence aggregation and inconsistency detection -/

/-- The context fields read by `ValidatorAgent._calculate_final_confidence`
(main.py lines 1957-1975): `ocr_confidence` is read with `context.get("ocr_confidence", 70)`,
`verified_facts` with default `[]`, and `validator_warnings` with default `self.warnings`
(the validator's own warning list, passed separately below). -/
structure ValCtx where
  ocr_confidence : Option ℚ
  verified_facts : List String
  validator_warnings : Option (List String)

/-- Embeds `ValidatorAgent._calculate_final_confidence` (main.py lines 1957-1975).
`self_warnings` is the validator's `self.warnings`, the default used when the
context has no `validator_warnings` key. -/
def calculate_final_confidence (self_warnings : List String) (context : ValCtx) : ℚ :=
  let ocr_conf := context.ocr_confidence.getD 70
  let ocr_conf := max 0 (min 100 ocr_conf)
  let verified := context.verified_facts.length
  let hist_score : ℚ := min ((verified : ℚ) * 15) 100
  let warnings := (context.validator_warnings.getD self_warnings).length
  let warning_penalty : ℚ := max 0 (100 - (warnings : ℚ) * 10)
  let final_score := ocr_conf * (4/10) + hist_score * (3/10) + warning_penalty * (3/10)
  max 0 (min 100 final_score)

/-- The context fields read by `ValidatorAgent._detect_inconsistencies`
(main.py lines 1941-1955): `raw_text` and `transliterated_text`, both read
with `context.get(key, "")`. -/
structure IncCtx where
  raw_text : Option String
  transliterated_text : Option String

/-- The f-string `"Text length changed by {len_diff*100:.0f}% after transliteration"`
of main.py line 1952 (Python `:.0f` float formatting approximated by rounding). -/
def inconsistencyMessage (len_diff : ℚ) : String :=
  "Text length changed by " ++ toString (round (len_diff * 100)) ++ "% after transliteration"

/-- Embeds `ValidatorAgent._detect_inconsistencies` (main.py lines 1941-1955).
The Python guard `if raw and trans` is string truthiness: both must be non-empty.
`len_diff = abs(len(raw) - len(trans)) / max(len(raw), 1)`. -/
def detect_inconsistencies (context : IncCtx) : List String :=
  let raw := context.raw_text.getD ""
  let trans := context.transliterated_text.getD ""
  if raw ≠ "" ∧ trans ≠ "" then
    let len_diff : ℚ := |(raw.length : ℚ) - (trans.length : ℚ)| / max (raw.length : ℚ) 1
    if len_diff > 3/10 then [inconsistencyMessage len_diff] else []
  else []

/-! ## ScannerAgent: skew detection and yellowing detection -/

/-- Insertion of a value into an ascending-sorted list (helper for `np.median`). -/
def insertSorted (a : ℚ) : List ℚ → List ℚ
  | [] => [a]
  | b :: t => if a ≤ b then a :: b :: t else b :: insertSorted a t

/-- Ascending insertion sort (helper for `np.median`). -/
def sortQ (l : List ℚ) : List ℚ := l.foldr insertSorted []

/-- Model of `np.median` of a non-empty sequence: middle element of the sorted sequence when the
length is odd, average of the two middle elements when it is even. -/
def medianQ (l : List ℚ) : ℚ :=
  let s := sortQ l
  let n := l.length
  if n % 2 = 1 then s.getD (n / 2) 0
  else (s.getD (n / 2 - 1) 0 + s.getD (n / 2) 0) / 2

/-- The angle filter of `ScannerAgent._detect_skew_angle` (main.py line 609):
keep a segment angle only when `-45 < angle < 45`. -/
def usableAngle (a : ℚ) : Bool := decide (-45 < a ∧ a < 45)

/-- Embeds `ScannerAgent._detect_skew_angle` (main.py lines 591-616), from the Hough stage on.
The input is `none` when `cv2.HoughLinesP` returns `None`, otherwise the list of segment
angles `np.degrees(np.arctan2(y2 - y1, x2 - x1))` in degrees; the source skips vertical
segments (`x2 - x1 == 0`) before computing an angle, equivalently their `±90°` angles are
removed by the `-45 < angle < 45` filter.  The result is the median of the kept angles,
zeroed when its magnitude is at most `0.5°`. -/
def detect_skew_angle : Option (List ℚ) → ℚ
  | none => 0
  | some ls =>
    if ls.length = 0 then 0
    else if ls.filter usableAngle = [] then 0
    else if |medianQ (ls.filter usableAngle)| > 1/2 then medianQ (ls.filter usableAngle)
    else 0

/-- Mean of a channel given as the list of its pixel values (numpy `.mean()`). -/
def channelMean (channel : List ℕ) : ℚ := (channel.sum : ℚ) / (channel.length : ℚ)

/-- Python `int()` on a rational value: truncation toward zero. -/
def pyTrunc (q : ℚ) : ℤ := q.num.tdiv (q.den : ℤ)

/-- The yellowing-detection step of `ScannerAgent._analyze_document_type`
(main.py lines 779-785): the mean of the LAB `b` (yellow-blue) channel is compared
with 135; above it the document is flagged yellowed and the quality issue records
the level `int((b_mean - 128) * 2)` (Python `int` truncates toward zero).
Returns `(is_yellowed, quality_issues appended by this step)`. -/
def yellowingCheck (b_channel : List ℕ) : Bool × List String :=
  let b_mean := channelMean b_channel
  if b_mean > 135 then
    (true, ["Paper yellowing (level: " ++ toString (pyTrunc ((b_mean - 128) * 2)) ++ ")"])
  else (false, [])

/-! ## ScannerAgent: enhancement pipeline (`_enhance_image`, main.py 842-909) -/

/-- An RGB pixel value. -/
abbrev RGB := ℕ × ℕ × ℕ

/-- A PIL image in RGB mode, as rows of pixels. -/
structure PILImage where
  rows : List (List RGB)

/-- An OpenCV image (BGR channel order), as rows of pixels. -/
structure CV2Image where
  rows : List (List RGB)

/-- Reversal of the channel order of one pixel (RGB↔BGR). -/
def channelSwap (p : RGB) : RGB := (p.2.2, p.2.1, p.1)

/-- Embeds `ScannerAgent._pil_to_cv2` (main.py 581-584): convert to RGB (identity on the
RGB images modelled here), then swap to BGR channel order. -/
def pil_to_cv2 (image : PILImage) : CV2Image :=
  ⟨image.rows.map (fun r => r.map channelSwap)⟩

/-- Embeds `ScannerAgent._cv2_to_pil` (main.py 586-589): swap BGR back to RGB channel order. -/
def cv2_to_pil (image : CV2Image) : PILImage :=
  ⟨image.rows.map (fun r => r.map channelSwap)⟩

/-- The `doc_analysis` fields read by `_enhance_image` (produced by
`_analyze_document_type`, main.py 754-840). -/
structure DocAnalysis where
  has_perspective : Bool
  skew_angle : ℚ
  has_shadows : Bool
  is_yellowed : Bool
  is_faded : Bool
  blur_level : String

/-- The OpenCV-backed helper operators called by `_enhance_image` (main.py 618-748);
their pixel-level behaviour is external library code (`cv2`), so the pipeline is
parametrized by them.  `noise_level` is `cv2.Laplacian(gray, cv2.CV_64F).var()` of
its argument (main.py 898-899). -/
structure EnhanceOps where
  detect_perspective : CV2Image → Option (List (ℤ × ℤ))
  correct_perspective : CV2Image → List (ℤ × ℤ) → CV2Image
  correct_skew : CV2Image → ℚ → CV2Image
  remove_shadows : CV2Image → CV2Image
  fix_yellowing : CV2Image → CV2Image
  enhance_contrast : CV2Image → Bool → CV2Image
  sharpen : CV2Image → String → CV2Image
  noise_level : CV2Image → ℚ
  denoise : CV2Image → CV2Image

/-- Python `f"{x:.1f}"` formatting, approximated by rounding to one decimal. -/
def fmtTenth (q : ℚ) : String :=
  let t := round (q * 10)
  (if t < 0 then "-" else "") ++ toString (t.natAbs / 10) ++ "." ++ toString (t.natAbs % 10)

/-- Embeds `ScannerAgent._enhance_image` (main.py 842-909): conditional, profile-gated
enhancement chain.  Each fired step transforms the current image and appends its
description; the source's `enhanced` flag is true exactly when some description was
appended, and when it stays false a single minimal-processing marker is recorded.
Step 7 measures the noise level of the image produced by steps 1-6. -/
def enhance_image (ops : EnhanceOps) (image : PILImage) (doc : DocAnalysis) :
    PILImage × List String :=
  let s0 : CV2Image × List String := (pil_to_cv2 image, [])
  let s1 :=
    if doc.has_perspective then
      match ops.detect_perspective s0.1 with
      | some corners => (ops.correct_perspective s0.1 corners,
          s0.2 ++ ["Perspective corrected (4-point transform)"])
      | none => s0
    else s0
  let s2 :=
    if |doc.skew_angle| > 1 then
      (ops.correct_skew s1.1 doc.skew_angle,
        s1.2 ++ ["Skew corrected (" ++ fmtTenth doc.skew_angle ++ "° via Hough)"])
    else s1
  let s3 :=
    if doc.has_shadows then (ops.remove_shadows s2.1, s2.2 ++ ["Shadows removed (CLAHE)"])
    else s2
  let s4 :=
    if doc.is_yellowed then
      (ops.fix_yellowing s3.1, s3.2 ++ ["Yellowing corrected (LAB color balance)"])
    else s3
  let s5 :=
    if doc.is_faded then
      (ops.enhance_contrast s4.1 doc.is_faded, s4.2 ++ ["Faded text restored (CLAHE)"])
    else s4
  let s6 :=
    if doc.blur_level = "high" ∨ doc.blur_level = "moderate" then
      (ops.sharpen s5.1 doc.blur_level,
        s5.2 ++ ["Sharpness enhanced (" ++ doc.blur_level ++ " unsharp mask)"])
    else s5
  let s7 :=
    if ops.noise_level s6.1 > 2000 then
      (ops.denoise s6.1, s6.2 ++ ["Noise reduction (NLM denoising)"])
    else s6
  (cv2_to_pil s7.1, if s7.2 = [] then ["Image quality good - minimal processing"] else s7.2)

/-! ## SwarmOrchestrator: stage sequencing (`resurrect`, main.py 2360-2503) -/

/-- One parallel agent task as launched by `run_agent_with_context` (main.py 2394-2404):
`duration` is its running time in seconds and `outcome` is either the collected message
list (normal completion) or the exception it raised — `asyncio.gather(...,
return_exceptions=True)` turns a raised exception into an exception entry in the
result list instead of propagating it. -/
structure StageRun where
  duration : ℚ
  outcome : Except String (List String)

/-- The parallel fan-out step of `SwarmOrchestrator.resurrect` (main.py 2406-2431):
`asyncio.wait_for` wraps the `gather` of all three agents in ONE shared 60-second
timeout.  If the slowest of the three is still running at the deadline, the
`TimeoutError` branch sets `parallel_results = []`; otherwise `gather` yields one
entry per agent — the `(name, messages)` tuple on success or the exception object on
failure — and the message-collection loop keeps only the tuple entries. -/
def parallelResults (linguist historian validator : StageRun) : List (String × List String) :=
  if max linguist.duration (max historian.duration validator.duration) > 60 then []
  else
    [linguist.outcome.map (fun ms => ("Linguist", ms)),
     historian.outcome.map (fun ms => ("Historian", ms)),
     validator.outcome.map (fun ms => ("Validator", ms))].filterMap Except.toOption

/-- The fixed fallback message yielded when the repair advisor raises
(main.py 2471-2480). -/
def repairFallbackMessage : String :=
  "Analysis complete - document processing finished successfully."

/-- Embeds `SwarmOrchestrator.resurrect` (main.py 2360-2503) at the level of stage outcomes,
producing the ordered message stream of one run.  The scanner's generator is iterated
first with no surrounding `try`, so a scanner exception propagates to the caller
(`.error`) and nothing further runs.  Parallel-stage exceptions are captured by the
gather (see `parallelResults`); the post-hoc sort of their messages by timestamp is
cosmetic (spec §9) and modelled as the gather order.  The repair advisor runs inside
`try/except`; on an exception the fixed fallback message is yielded instead.  The
completion-summary message (a presentation-only f-string) is not modelled. -/
def resurrect (scanner : Except String (List String)) (linguist historian validator : StageRun)
    (repair : Except String (List String)) : Except String (List String) :=
  match scanner with
  | .error e => .error e
  | .ok scannerMsgs =>
    let parallelMsgs := ((parallelResults linguist historian validator).map Prod.snd).flatten
    let repairMsgs :=
      match repair with
      | .ok ms => ms
      | .error _ => [repairFallbackMessage]
    .ok (scannerMsgs ++ parallelMsgs ++ repairMsgs)

/-- The sequence of writes to the shared `context` dict during one successful run of
`SwarmOrchestrator.resurrect`, as `(key, value)` pairs in program order.
`scannerTextLen` is `len(scanner_text)`.  Values that no property inspects are
represented by a short description of the source expression (marked `<...>`); the
coordinator's collaboration-hint values are given exactly.  Writes into the nested
`agent_findings` dict (which mutate that dict's sub-keys, not the top-level binding)
are listed as `agent_findings[...]` keys.  The three parallel runners each execute the
two hint writes of main.py 2399-2400; their interleaving is modelled agent-by-agent
(all write equal values, so order is immaterial). -/
def contextWriteTrace (scannerTextLen : ℕ) : List (String × String) :=
  [("image_data", "<request bytes>"),                    -- main.py 2374
   ("start_time", "<utcnow>"),                           -- main.py 2375
   ("agent_findings", "<empty dict>"),                   -- main.py 2376
   ("document_analysis", "<scanner analysis>"),          -- main.py 1270
   ("layout_analysis", "<scanner layout>"),              -- main.py 1271
   ("enhancements_applied", "<scanner enhancements>"),   -- main.py 1272
   ("enhanced_image_base64", "<scanner image b64>"),     -- main.py 1273
   ("raw_text", "<scanner OCR text>"),                   -- main.py 1302
   ("ocr_confidence", "<scanner OCR confidence>"),       -- main.py 1303
   ("agent_findings[scanner]", "<scanner summary>"),     -- main.py 2386
   ("previous_agent", "Scanner"),                        -- main.py 2399 (linguist runner)
   ("previous_findings", "extracted " ++ toString scannerTextLen ++ " chars"),  -- 2400
   ("transliterated_text", "<linguist text>"),           -- main.py 1541
   ("linguistic_changes", "<linguist changes>"),         -- main.py 1542
   ("historical_terms", "<linguist terms>"),             -- main.py 1543
   ("cultural_insights", "<linguist insights>"),         -- main.py 1544
   ("cultural_significance", "<linguist significance>"), -- main.py 1545
   ("previous_agent", "Scanner"),                        -- main.py 2399 (historian runner)
   ("previous_findings", "extracted " ++ toString scannerTextLen ++ " chars"),  -- 2400
   ("historian_findings", "<historian findings>"),       -- main.py 1754
   ("verified_facts", "<historian facts>"),              -- main.py 1755
   ("historical_anomalies", "<historian anomalies>"),    -- main.py 1756
   ("previous_agent", "Scanner"),                        -- main.py 2399 (validator runner)
   ("previous_findings", "extracted " ++ toString scannerTextLen ++ " chars"),  -- 2400
   ("final_confidence", "<validator confidence>"),       -- main.py 1905
   ("validator_warnings", "<validator warnings>"),       -- main.py 1906
   ("validator_corrections", "<validator corrections>"), -- main.py 1907
   ("agent_findings[linguist]", "<linguist summary>"),   -- main.py 2442
   ("agent_findings[historian]", "<historian summary>"), -- main.py 2446
   ("agent_findings[validator]", "<validator summary>"), -- main.py 2450
   ("previous_agent", "Validator"),                      -- main.py 2457
   ("all_agents_complete", "True"),                      -- main.py 2458
   ("repair_recommendations", "<advisor recommendations>"),  -- main.py 2175
   ("damage_hotspots", "<advisor hotspots>"),            -- main.py 2176
   ("digitization_priority", "<advisor priority>")]      -- main.py 2177

/-- The two coordinator collaboration-hint keys, rewritten between phases. -/
def hintKey (k : String) : Bool := k == "previous_agent" || k == "previous_findings"

/-! ## DeduplicationCache (main.py 2676-2719) -/

/-- A Python dict modelled observationally as an association list in which a later
entry overrides an earlier one; `pyGet` is lookup (`d[k]`, with `none` for `k not in d`). -/
def pyGet {α : Type} (d : List (String × α)) (k : String) : Option α :=
  ((d.filter (fun p => p.1 == k)).getLast?).map Prod.snd

/-- A cached result dict (string keys; values modelled as strings). -/
abbrev PyDict := List (String × String)

/-- Embeds the `DeduplicationCache.__init__` state (main.py 2680-2684): the in-memory
hash→result map and the hit/miss counters. -/
structure DeduplicationCache where
  cache : List (String × PyDict)
  cache_hits : ℕ
  cache_misses : ℕ

/-- Embeds `DeduplicationCache.get` (main.py 2690-2698): when the hash is present, count a
hit and return the stored dict; otherwise count a miss and return `None`.
Returns the looked-up value together with the updated cache state. -/
def DeduplicationCache.get (self : DeduplicationCache) (image_hash : String) :
    Option PyDict × DeduplicationCache :=
  match pyGet self.cache image_hash with
  | some v => (some v, { self with cache_hits := self.cache_hits + 1 })
  | none => (none, { self with cache_misses := self.cache_misses + 1 })

/-- Embeds `DeduplicationCache.set` (main.py 2700-2707): store
`{**result, "cached_at": now, "cache_hash": image_hash}` under the hash;
`now` models `datetime.utcnow().isoformat()`. -/
def DeduplicationCache.set (self : DeduplicationCache) (image_hash : String)
    (result : PyDict) (now : String) : DeduplicationCache :=
  { self with
    cache := self.cache
      ++ [(image_hash, result ++ [("cached_at", now), ("cache_hash", image_hash)])] }

/-! ## DeduplicationCache.compute_hash (main.py 2686-2688)

`hashlib.sha256(image_data).hexdigest()[:16]`: the Python standard-library SHA-256
is embedded in full (FIPS 180-4), on bytes modelled as `ℕ` values; `hexdigest` is the
lowercase hexadecimal rendering of the 32-byte digest. -/

/-- Addition modulo two to the 32. -/
def add32 (x y : ℕ) : ℕ := (x + y) % 4294967296

/-- Right rotation of a 32-bit word (for `x < 2^32`), reduced modulo `2^32`. -/
def rotr32 (x n : ℕ) : ℕ := Nat.lor (x >>> n) (x <<< (32 - n)) % 4294967296

/-- SHA-256 small sigma 0. -/
def lowSig0 (x : ℕ) : ℕ := Nat.xor (Nat.xor (rotr32 x 7) (rotr32 x 18)) (x >>> 3)

/-- SHA-256 small sigma 1. -/
def lowSig1 (x : ℕ) : ℕ := Nat.xor (Nat.xor (rotr32 x 17) (rotr32 x 19)) (x >>> 10)

/-- SHA-256 big sigma 0. -/
def capSig0 (x : ℕ) : ℕ := Nat.xor (Nat.xor (rotr32 x 2) (rotr32 x 13)) (rotr32 x 22)

/-- SHA-256 big sigma 1. -/
def capSig1 (x : ℕ) : ℕ := Nat.xor (Nat.xor (rotr32 x 6) (rotr32 x 11)) (rotr32 x 25)

/-- SHA-256 choose function (the complement of `x` taken as XOR with `2^32 - 1`). -/
def ch32 (x y z : ℕ) : ℕ := Nat.xor (x &&& y) (Nat.xor x 4294967295 &&& z)

/-- SHA-256 majority function. -/
def maj32 (x y z : ℕ) : ℕ := Nat.xor (Nat.xor (x &&& y) (x &&& z)) (y &&& z)

/-- The 64 SHA-256 round constants (FIPS 180-4 section 4.2.2), written in decimal. -/
def K256 : List ℕ :=
  [1116352408, 1899447441, 3049323471, 3921009573, 961987163,
   1508970993, 2453635748, 2870763221, 3624381080, 310598401,
   607225278, 1426881987, 1925078388, 2162078206, 2614888103,
   3248222580, 3835390401, 4022224774, 264347078, 604807628,
   770255983, 1249150122, 1555081692, 1996064986, 2554220882,
   2821834349, 2952996808, 3210313671, 3336571891, 3584528711,
   113926993, 338241895, 666307205, 773529912, 1294757372,
   1396182291, 1695183700, 1986661051, 2177026350, 2456956037,
   2730485921, 2820302411, 3259730800, 3345764771, 3516065817,
   3600352804, 4094571909, 275423344, 430227734, 506948616,
   659060556, 883997877, 958139571, 1322822218, 1537002063,
   1747873779, 1955562222, 2024104815, 2227730452, 2361852424,
   2428436474, 2756734187, 3204031479, 3329325298]

/-- The eight SHA-256 working/state variables `a..h`. -/
structure Hash8 where
  a : ℕ
  b : ℕ
  c : ℕ
  d : ℕ
  e : ℕ
  f : ℕ
  g : ℕ
  h : ℕ

/-- The SHA-256 initial hash value (FIPS 180-4 section 5.3.3), written in decimal. -/
def sha256Init : Hash8 :=
  ⟨1779033703, 3144134277, 1013904242, 2773480762,
   1359893119, 2600822924, 528734635, 1541459225⟩

/-- One message-schedule extension step: append `W[t] = σ1(W[t-2]) + W[t-7] + σ0(W[t-15])
+ W[t-16]`. -/
def scheduleStep (w : List ℕ) : List ℕ :=
  w ++ [add32 (add32 (lowSig1 (w.getD (w.length - 2) 0)) (w.getD (w.length - 7) 0))
        (add32 (lowSig0 (w.getD (w.length - 15) 0)) (w.getD (w.length - 16) 0))]

/-- Expand a 16-word block to the 64-word message schedule. -/
def schedule (block : List ℕ) : List ℕ := scheduleStep^[48] block

/-- One SHA-256 compression round, consuming a `(W[t], K[t])` pair. -/
def sha256Round (s : Hash8) (wk : ℕ × ℕ) : Hash8 :=
  let t1 := add32 (add32 (add32 s.h (capSig1 s.e)) (add32 (ch32 s.e s.f s.g) wk.2)) wk.1
  let t2 := add32 (capSig0 s.a) (maj32 s.a s.b s.c)
  ⟨add32 t1 t2, s.a, s.b, s.c, add32 s.d t1, s.e, s.f, s.g⟩

/-- Compress one 16-word block into the running hash value. -/
def compress (hs : Hash8) (block : List ℕ) : Hash8 :=
  let s := ((schedule block).zip K256).foldl sha256Round hs
  ⟨add32 hs.a s.a, add32 hs.b s.b, add32 hs.c s.c, add32 hs.d s.d,
   add32 hs.e s.e, add32 hs.f s.f, add32 hs.g s.g, add32 hs.h s.h⟩

/-- SHA-256 padding: append `0x80`, zeros to 56 mod 64, then the 64-bit big-endian
bit length. -/
def padMessage (msg : List ℕ) : List ℕ :=
  let bitLen := 8 * msg.length
  let zeros := (120 - (msg.length + 1) % 64) % 64
  msg ++ [128] ++ List.replicate zeros 0
    ++ [(bitLen >>> 56) % 256, (bitLen >>> 48) % 256, (bitLen >>> 40) % 256,
        (bitLen >>> 32) % 256, (bitLen >>> 24) % 256, (bitLen >>> 16) % 256,
        (bitLen >>> 8) % 256, bitLen % 256]

/-- Group bytes into big-endian 32-bit words. -/
def toWords : List ℕ → List ℕ
  | b0 :: b1 :: b2 :: b3 :: rest =>
    (b0 * 16777216 + b1 * 65536 + b2 * 256 + b3) :: toWords rest
  | _ => []

/-- Split a word list into 16-word blocks (fuel-based structural recursion). -/
def chunks16Aux : ℕ → List ℕ → List (List ℕ)
  | 0, _ => []
  | _ + 1, [] => []
  | fuel + 1, w => w.take 16 :: chunks16Aux fuel (w.drop 16)

/-- Split a word list into 16-word blocks. -/
def chunks16 (l : List ℕ) : List (List ℕ) := chunks16Aux l.length l

/-- SHA-256 of a byte sequence, as the final eight-word state. -/
def sha256 (msg : List ℕ) : Hash8 :=
  (chunks16 (toWords (padMessage msg))).foldl compress sha256Init

/-- Big-endian bytes of one 32-bit word. -/
def wordBytes (w : ℕ) : List ℕ := [(w >>> 24) % 256, (w >>> 16) % 256, (w >>> 8) % 256, w % 256]

/-- The 32-byte SHA-256 digest of a byte sequence. -/
def sha256Bytes (msg : List ℕ) : List ℕ :=
  let d := sha256 msg
  wordBytes d.a ++ wordBytes d.b ++ wordBytes d.c ++ wordBytes d.d
    ++ wordBytes d.e ++ wordBytes d.f ++ wordBytes d.g ++ wordBytes d.h

/-- Lowercase hexadecimal digit: codepoint 48 is the zero digit, 97 the letter a. -/
def hexChar (n : ℕ) : Char :=
  if n < 10 then Char.ofNat (48 + n) else Char.ofNat (87 + n)

/-- Model of the `hashlib` method producing the lowercase hex rendering, two characters per byte. -/
def hexdigest (bytes : List ℕ) : List Char :=
  (bytes.map (fun b => [hexChar (b / 16), hexChar (b % 16)])).flatten

/-- Embeds `DeduplicationCache.compute_hash` (main.py 2686-2688):
`hashlib.sha256(image_data).hexdigest()[:16]`. -/
def compute_hash (image_data : List ℕ) : String :=
  String.mk ((hexdigest (sha256Bytes image_data)).take 16)

/-! ## Theorems -/

set_option maxRecDepth 8000

/-- Appending an entry for key `k` makes `pyGet k` return it. -/
theorem pyGet_append_self {α : Type} (d : List (String × α)) (k : String) (v : α) :
    pyGet (d ++ [(k, v)]) k = some v := by
  unfold pyGet
  rw [List.filter_append]
  simp

/-- Appending an entry for another key leaves `pyGet k` unchanged. -/
theorem pyGet_append_other {α : Type} (d : List (String × α)) (k k2 : String) (v : α)
    (hne : k2 ≠ k) : pyGet (d ++ [(k2, v)]) k = pyGet d k := by
  unfold pyGet
  rw [List.filter_append]
  simp [hne]

/-- Truncation toward zero agrees with the floor on nonnegative rationals. -/
theorem pyTrunc_eq_floor (q : ℚ) (hq : 0 ≤ q) : pyTrunc q = ⌊q⌋ := by
  unfold pyTrunc
  rw [Rat.floor_def]
  exact Int.tdiv_eq_ediv (Rat.num_nonneg.mpr hq) (Int.ofNat_nonneg q.den)

/-- On a non-empty usable-angle list whose median is small, the detector returns 0. -/
theorem detect_skew_zero_of_small (ls : List ℚ)
    (hm : |medianQ (ls.filter usableAngle)| ≤ 1/2) :
    detect_skew_angle (some ls) = 0 := by
  simp only [detect_skew_angle]
  split
  · rfl
  split
  · rfl
  rw [if_neg (not_lt.mpr hm)]

/-- On a list with at least one usable angle and a large median, the detector
returns the median. -/
theorem detect_skew_median_of_large (ls : List ℚ) (hf : ls.filter usableAngle ≠ [])
    (hm : |medianQ (ls.filter usableAngle)| > 1/2) :
    detect_skew_angle (some ls) = medianQ (ls.filter usableAngle) := by
  have hlen : ¬(ls.length = 0) := by
    intro h0
    exact hf (by simp [List.length_eq_zero.mp h0])
  simp only [detect_skew_angle]
  rw [if_neg hlen, if_neg hf, if_pos hm]

/-- C1: for every pipeline context, the final confidence equals
`clamp (0.4 * clamp₀₁₀₀(ocr) + 0.3 * min(15·verified, 100) + 0.3 * max(0, 100 - 10·warnings))`
and always lies in `[0, 100]`, including when the recognition stage reports a confidence
outside that range before clamping. -/
theorem C1_final_confidence (sw : List String) (context : ValCtx) (c : ℚ)
    (h : context.ocr_confidence = some c) :
    calculate_final_confidence sw context =
      max 0 (min 100
        ((4/10) * max 0 (min 100 c)
          + (3/10) * min (15 * (context.verified_facts.length : ℚ)) 100
          + (3/10) * max 0 (100 - 10 * ((context.validator_warnings.getD sw).length : ℚ))))
    ∧ 0 ≤ calculate_final_confidence sw context
    ∧ calculate_final_confidence sw context ≤ 100 := by
  refine ⟨?_, ?_, ?_⟩
  · unfold calculate_final_confidence
    rw [h]
    simp only [Option.getD_some]
    congr 1
    congr 1
    ring_nf
  · exact le_max_left 0 _
  · exact max_le (by norm_num) (min_le_left _ _)

/-- Witness for C1 at a concrete context with out-of-range recognition confidence 150,
two verified facts and three warnings. -/
theorem C1_final_confidence_witness :
    calculate_final_confidence [] ⟨some 150, ["a", "b"], some ["x", "y", "z"]⟩ =
      max 0 (min 100
        ((4/10) * max 0 (min 100 (150 : ℚ))
          + (3/10) * min (15 * (2 : ℚ)) 100
          + (3/10) * max 0 (100 - 10 * (3 : ℚ))))
    ∧ 0 ≤ calculate_final_confidence [] ⟨some 150, ["a", "b"], some ["x", "y", "z"]⟩
    ∧ calculate_final_confidence [] ⟨some 150, ["a", "b"], some ["x", "y", "z"]⟩ ≤ 100 :=
  C1_final_confidence [] ⟨some 150, ["a", "b"], some ["x", "y", "z"]⟩ 150 rfl

/-- C4 fails as stated: with a pre-normalization text of length 100 and an empty
post-normalization text (relative change 100% > 30%), the code emits no finding,
because the `if raw and trans` guard requires both texts non-empty. -/
theorem C4_counterexample :
    detect_inconsistencies ⟨some (String.mk (List.replicate 100 'a')), some ""⟩ = []
    ∧ (|(100 : ℚ) - 0| / 100 > 3/10) := by
  constructor
  · decide
  · norm_num

/-- C4 amended: when both the pre- and post-normalization texts are non-empty,
an inconsistency finding is emitted exactly when the relative length change
exceeds 30%; when either text is empty, no finding is emitted. -/
theorem C4_amended (raw trans : String) (h1 : raw ≠ "") (h2 : trans ≠ "") :
    detect_inconsistencies ⟨some raw, some trans⟩ ≠ [] ↔
      |(raw.length : ℚ) - (trans.length : ℚ)| / (raw.length : ℚ) > 3/10 := by
  have hlen : (1 : ℚ) ≤ (raw.length : ℚ) := by
    have h0 : raw.length ≠ 0 := by
      intro h0
      apply h1
      apply String.ext
      exact List.length_eq_zero.mp h0
    exact_mod_cast Nat.one_le_iff_ne_zero.mpr h0
  unfold detect_inconsistencies
  simp only [Option.getD]
  rw [if_pos ⟨h1, h2⟩, max_eq_left hlen]
  split
  · simpa using ‹_›
  · simpa using not_lt.mp ‹_›

/-- Witness for C4 at the spec's scenario lengths: 100 → 145 (45% growth) emits a
finding; 100 → 110 (10% growth) emits none. -/
theorem C4_amended_witness :
    detect_inconsistencies
      ⟨some (String.mk (List.replicate 100 'a')), some (String.mk (List.replicate 145 'b'))⟩ ≠ []
    ∧ detect_inconsistencies
      ⟨some (String.mk (List.replicate 100 'a')), some (String.mk (List.replicate 110 'b'))⟩ = [] := by
  have e100 : (String.mk (List.replicate 100 'a')).length = 100 := by decide
  have e145 : (String.mk (List.replicate 145 'b')).length = 145 := by decide
  have e110 : (String.mk (List.replicate 110 'b')).length = 110 := by decide
  constructor
  · refine (C4_amended _ _ (by decide) (by decide)).mpr ?_
    rw [e100, e145]
    norm_num
  · have h := C4_amended (String.mk (List.replicate 100 'a')) (String.mk (List.replicate 110 'b'))
      (by decide) (by decide)
    rw [e100, e110] at h
    exact not_ne_iff.mp (fun hne => absurd (h.mp hne) (by norm_num))

/-- C6 fails as stated: a single usable segment of angle `0.3°` gives a median of `0.3`,
but the code returns `0` because the median's magnitude is at most `0.5°`
(main.py line 616 zeroes any median with `abs(median_angle) <= 0.5`). -/
theorem C6_counterexample :
    [3/10].filter usableAngle = [(3/10 : ℚ)]
    ∧ medianQ [3/10] = 3/10
    ∧ (3/10 : ℚ) ≠ 0
    ∧ detect_skew_angle (some [3/10]) = 0 := by
  have hfilter : [3/10].filter usableAngle = [(3/10 : ℚ)] := by
    norm_num [List.filter, usableAngle]
  have hmed : medianQ [(3/10 : ℚ)] = 3/10 := rfl
  refine ⟨hfilter, hmed, by norm_num, ?_⟩
  apply detect_skew_zero_of_small
  rw [hfilter, hmed]
  rw [abs_of_nonneg (by norm_num)]
  norm_num

/-- C6 amended: the skew angle is `0` whenever fewer than one usable segment is found,
and equals the median of the usable segment angles whenever at least one is found AND
the median's magnitude exceeds `0.5°`; a median of magnitude at most `0.5°` is zeroed. -/
theorem C6_amended (ls : List ℚ) :
    (detect_skew_angle none = 0)
    ∧ (ls.filter usableAngle = [] → detect_skew_angle (some ls) = 0)
    ∧ (ls.filter usableAngle ≠ [] → |medianQ (ls.filter usableAngle)| > 1/2 →
        detect_skew_angle (some ls) = medianQ (ls.filter usableAngle))
    ∧ (ls.filter usableAngle ≠ [] → |medianQ (ls.filter usableAngle)| ≤ 1/2 →
        detect_skew_angle (some ls) = 0) := by
  refine ⟨rfl, ?_, ?_, ?_⟩
  · intro hf
    simp only [detect_skew_angle]
    rcases Nat.eq_zero_or_pos ls.length with h0 | h0
    · rw [if_pos h0]
    · rw [if_neg (Nat.pos_iff_ne_zero.mp h0), if_pos hf]
  · intro hf hm
    exact detect_skew_median_of_large ls hf hm
  · intro hf hm
    exact detect_skew_zero_of_small ls hm

/-- Witness for C6 at three usable angles `[2°, 3°, 4°]`: median `3°` exceeds `0.5°`
and is returned unchanged. -/
theorem C6_amended_witness :
    detect_skew_angle (some [2, 3, 4]) = medianQ ([2, 3, 4].filter usableAngle)
    ∧ medianQ ([2, 3, 4].filter usableAngle) = 3 := by
  constructor
  · refine (C6_amended [2, 3, 4]).2.2.1 (by decide) ?_
    have : ([2, 3, 4] : List ℚ).filter usableAngle = [2, 3, 4] := by decide
    rw [this]
    have : medianQ [2, 3, 4] = 3 := by decide
    rw [this]
    norm_num
  · have : ([2, 3, 4] : List ℚ).filter usableAngle = [2, 3, 4] := by decide
    rw [this]
    decide

/-- C7 fails as stated: a `b`-channel of nine pixels at 136 and one at 135 has mean
`135.9 > 135`, so the document is flagged yellowed, but the recorded level is
`int(15.8) = 15` (truncation) while the claim's `round(15.8)` is 16. -/
theorem C7_counterexample :
    yellowingCheck [136, 136, 136, 136, 136, 136, 136, 136, 136, 135] =
      (true, ["Paper yellowing (level: 15)"])
    ∧ round ((channelMean [136, 136, 136, 136, 136, 136, 136, 136, 136, 135] - 128) * 2) =
        (16 : ℤ) := by
  have hmean : channelMean [136, 136, 136, 136, 136, 136, 136, 136, 136, 135] = 1359/10 := by
    unfold channelMean
    norm_num
  have harg : ((1359 : ℚ)/10 - 128) * 2 = 79/5 := by norm_num
  constructor
  · unfold yellowingCheck
    rw [hmean, if_pos (by norm_num), harg, pyTrunc_eq_floor (79/5) (by norm_num)]
    have hfl : ⌊(79/5 : ℚ)⌋ = 15 := by norm_num
    rw [hfl]
    rfl
  · rw [hmean, harg]
    norm_num [round_eq]

/-- C7 amended: a mean yellow-blue value above 135 flags the document yellowed with
recorded level `⌊(mean − 128)·2⌋` (Python `int` truncation, which equals the floor
here because the value is positive); a mean of 135 or below leaves it unflagged. -/
theorem C7_amended (b_channel : List ℕ) :
    (channelMean b_channel > 135 →
      yellowingCheck b_channel =
        (true, ["Paper yellowing (level: "
          ++ toString ⌊(channelMean b_channel - 128) * 2⌋ ++ ")"]))
    ∧ (channelMean b_channel ≤ 135 → yellowingCheck b_channel = (false, [])) := by
  constructor
  · intro hm
    unfold yellowingCheck
    rw [if_pos hm, pyTrunc_eq_floor _ (by nlinarith)]
  · intro hm
    unfold yellowingCheck
    rw [if_neg (not_lt.mpr hm)]

/-- Swapping channel order twice restores every pixel of a row. -/
theorem map_channelSwap_channelSwap (r : List RGB) :
    (r.map channelSwap).map channelSwap = r := by
  induction r with
  | nil => rfl
  | cons p t ih => simp [channelSwap, ih]

/-- The PIL→cv2→PIL round trip is the identity on RGB images. -/
theorem cv2_roundtrip (image : PILImage) : cv2_to_pil (pil_to_cv2 image) = image := by
  cases image with
  | mk rows =>
    unfold pil_to_cv2 cv2_to_pil
    congr 1
    induction rows with
    | nil => rfl
    | cons r t ih => simp only [List.map_cons, map_channelSwap_channelSwap, ih]

/-- C5: when no gating condition fires — no perspective distortion, `|skew| ≤ 1°`,
no shadows, not yellowed, not faded, blur neither moderate nor high, and the
post-enhancement noise level not above the fixed threshold 2000 — the operations
list is exactly one minimal-processing entry and the output image equals the input
(the BGR/RGB conversions are a no-op round trip). -/
theorem C5_minimal_processing (ops : EnhanceOps) (image : PILImage) (doc : DocAnalysis)
    (h1 : doc.has_perspective = false)
    (h2 : |doc.skew_angle| ≤ 1)
    (h3 : doc.has_shadows = false)
    (h4 : doc.is_yellowed = false)
    (h5 : doc.is_faded = false)
    (h6 : doc.blur_level ≠ "high")
    (h7 : doc.blur_level ≠ "moderate")
    (h8 : ops.noise_level (pil_to_cv2 image) ≤ 2000) :
    enhance_image ops image doc = (image, ["Image quality good - minimal processing"]) := by
  have hblur : ¬(doc.blur_level = "high" ∨ doc.blur_level = "moderate") := by
    simp [h6, h7]
  unfold enhance_image
  simp only [h1, h3, h4, h5, Bool.false_eq_true, if_false, if_neg (not_lt.mpr h2),
    if_neg hblur, if_neg (not_lt.mpr h8), cv2_roundtrip, if_pos rfl, if_true]

/-- Witness for C5: identity operators, a 1×1 image, and a profile with no flag set. -/
theorem C5_minimal_processing_witness :
    enhance_image
      ⟨fun _ => none, fun i _ => i, fun i _ => i, fun i => i, fun i => i, fun i _ => i,
       fun i _ => i, fun _ => 0, fun i => i⟩
      ⟨[[(1, 2, 3)]]⟩ ⟨false, 0, false, false, false, "none"⟩ =
      (⟨[[(1, 2, 3)]]⟩, ["Image quality good - minimal processing"]) :=
  C5_minimal_processing _ _ _ rfl (by norm_num) rfl rfl rfl (by decide) (by decide)
    (by norm_num)

/-- C2 fails as stated: the three parallel stages share one 60-second group timeout
rather than individual ones.  With the linguist still running at 100 s while the
historian (1 s) and validator (2 s) completed normally, `asyncio.wait_for` times out
the whole `gather` and `parallel_results = []` discards the two completed siblings'
findings, which the claim says would be kept. -/
theorem C2_counterexample :
    parallelResults ⟨100, .ok []⟩ ⟨1, .ok ["historian finding"]⟩ ⟨2, .ok ["validator finding"]⟩
        = []
    ∧ ("Historian", ["historian finding"]) ∉
        parallelResults ⟨100, .ok []⟩ ⟨1, .ok ["historian finding"]⟩
          ⟨2, .ok ["validator finding"]⟩ := by
  constructor
  · decide
  · decide

/-- C2 amended: the three parallel stages share a single 60-second group timeout.
If the slowest stage exceeds it, all three stages' findings are discarded (not an
error) and the run proceeds with none of them; if the group finishes within the
budget, every stage that completed normally contributes its findings — an exception
in one stage does not discard its siblings' output. -/
theorem C2_amended (linguist historian validator : StageRun) :
    (max linguist.duration (max historian.duration validator.duration) > 60 →
      parallelResults linguist historian validator = [])
    ∧ (max linguist.duration (max historian.duration validator.duration) ≤ 60 →
        (∀ ms, linguist.outcome = .ok ms →
          ("Linguist", ms) ∈ parallelResults linguist historian validator)
        ∧ (∀ ms, historian.outcome = .ok ms →
          ("Historian", ms) ∈ parallelResults linguist historian validator)
        ∧ (∀ ms, validator.outcome = .ok ms →
          ("Validator", ms) ∈ parallelResults linguist historian validator)) := by
  constructor
  · intro h
    unfold parallelResults
    rw [if_pos h]
  · intro h
    unfold parallelResults
    rw [if_neg (not_lt.mpr h)]
    refine ⟨?_, ?_, ?_⟩
    · intro ms hms
      rw [List.mem_filterMap]
      exact ⟨linguist.outcome.map (fun ms => ("Linguist", ms)), by simp, by rw [hms]; rfl⟩
    · intro ms hms
      rw [List.mem_filterMap]
      exact ⟨historian.outcome.map (fun ms => ("Historian", ms)), by simp, by rw [hms]; rfl⟩
    · intro ms hms
      rw [List.mem_filterMap]
      exact ⟨validator.outcome.map (fun ms => ("Validator", ms)), by simp, by rw [hms]; rfl⟩

/-- Witness for C2 (amended) at a group within budget where the linguist raised and
the other two completed: both completed stages' findings are kept. -/
theorem C2_amended_witness :
    ("Historian", ["hm"]) ∈
      parallelResults ⟨10, .error "boom"⟩ ⟨20, .ok ["hm"]⟩ ⟨30, .ok ["vm"]⟩
    ∧ ("Validator", ["vm"]) ∈
      parallelResults ⟨10, .error "boom"⟩ ⟨20, .ok ["hm"]⟩ ⟨30, .ok ["vm"]⟩ :=
  ⟨((C2_amended ⟨10, .error "boom"⟩ ⟨20, .ok ["hm"]⟩ ⟨30, .ok ["vm"]⟩).2
      (by decide)).2.1 ["hm"] rfl,
   ((C2_amended ⟨10, .error "boom"⟩ ⟨20, .ok ["hm"]⟩ ⟨30, .ok ["vm"]⟩).2
      (by decide)).2.2 ["vm"] rfl⟩

/-- C3: a scanner failure aborts the whole run — the caller receives the error and no
final record is produced — while for any outcome of the parallel stages and of the
repair advisor (including exceptions) the run completes and produces a record; a
repair-advisor exception is replaced by the fixed fallback message. -/
theorem C3_failure_semantics (linguist historian validator : StageRun)
    (repair : Except String (List String)) :
    (∀ e, resurrect (.error e) linguist historian validator repair = .error e)
    ∧ (∀ scannerMsgs, ∃ msgs,
        resurrect (.ok scannerMsgs) linguist historian validator repair = .ok msgs)
    ∧ (∀ scannerMsgs e, resurrect (.ok scannerMsgs) linguist historian validator (.error e) =
        .ok (scannerMsgs
          ++ ((parallelResults linguist historian validator).map Prod.snd).flatten
          ++ [repairFallbackMessage])) :=
  ⟨fun _ => rfl, fun _ => ⟨_, rfl⟩, fun _ _ => rfl⟩

/-- C9 fails as stated: the coordinator writes the shared key `previous_agent` four
times in one successful run — value `"Scanner"` once per parallel runner, then value
`"Validator"` before the final stage — so a later write overwrites an earlier one
with a different value. -/
theorem C9_counterexample :
    ((contextWriteTrace 100).filter (fun w => w.1 == "previous_agent")).map Prod.snd =
      ["Scanner", "Scanner", "Scanner", "Validator"]
    ∧ ((contextWriteTrace 100).filter (fun w => w.1 == "previous_agent")).length = 4
    ∧ ("Scanner" : String) ≠ "Validator" := by
  refine ⟨by decide, by decide, by decide⟩

/-- C9 amended: every key of the shared context other than the two coordinator
collaboration-hint keys (`previous_agent`, `previous_findings`) is written at most
once per run; the hint keys are deliberately rewritten — `previous_agent` gets
`"Scanner"` once per parallel runner and then `"Validator"` before the final stage. -/
theorem C9_amended (n : ℕ) :
    (((contextWriteTrace n).map Prod.fst).filter (fun k => !(hintKey k))).Nodup
    ∧ ((contextWriteTrace n).filter (fun w => w.1 == "previous_agent")).map Prod.snd =
        ["Scanner", "Scanner", "Scanner", "Validator"] := by
  have hkeys : (contextWriteTrace n).map Prod.fst =
      ["image_data", "start_time", "agent_findings", "document_analysis", "layout_analysis",
       "enhancements_applied", "enhanced_image_base64", "raw_text", "ocr_confidence",
       "agent_findings[scanner]", "previous_agent", "previous_findings",
       "transliterated_text", "linguistic_changes", "historical_terms", "cultural_insights",
       "cultural_significance", "previous_agent", "previous_findings", "historian_findings",
       "verified_facts", "historical_anomalies", "previous_agent", "previous_findings",
       "final_confidence", "validator_warnings", "validator_corrections",
       "agent_findings[linguist]", "agent_findings[historian]", "agent_findings[validator]",
       "previous_agent", "all_agents_complete", "repair_recommendations", "damage_hotspots",
       "digitization_priority"] := rfl
  constructor
  · rw [hkeys]
    decide
  · rfl

/-- C10: after `set(h, r)`, `get(h)` returns the stored dict (never `None`), counted as
a hit; the stored dict maps `cache_hash` to `h`, `cached_at` to the cache's timestamp
(overriding any such keys in `r`), and agrees with `r` on every other key. -/
theorem C10_get_after_set (c : DeduplicationCache) (image_hash : String) (result : PyDict)
    (now : String) :
    ((c.set image_hash result now).get image_hash).1 =
        some (result ++ [("cached_at", now), ("cache_hash", image_hash)])
    ∧ ((c.set image_hash result now).get image_hash).2.cache_hits = c.cache_hits + 1
    ∧ pyGet (result ++ [("cached_at", now), ("cache_hash", image_hash)]) "cache_hash" =
        some image_hash
    ∧ pyGet (result ++ [("cached_at", now), ("cache_hash", image_hash)]) "cached_at" =
        some now
    ∧ ∀ k, k ≠ "cached_at" → k ≠ "cache_hash" →
        pyGet (result ++ [("cached_at", now), ("cache_hash", image_hash)]) k =
          pyGet result k := by
  have hsplit : result ++ [("cached_at", now), ("cache_hash", image_hash)] =
      (result ++ [("cached_at", now)]) ++ [("cache_hash", image_hash)] := by
    rw [List.append_assoc]
    rfl
  have hv := pyGet_append_self c.cache image_hash
    (result ++ [("cached_at", now), ("cache_hash", image_hash)])
  refine ⟨?_, ?_, ?_, ?_, ?_⟩
  · unfold DeduplicationCache.get DeduplicationCache.set
    simp only [hv]
  · unfold DeduplicationCache.get DeduplicationCache.set
    simp only [hv]
  · rw [hsplit, pyGet_append_self]
  · rw [hsplit, pyGet_append_other _ _ _ _ (by decide), pyGet_append_self]
  · intro k hca hch
    rw [hsplit, pyGet_append_other _ _ _ _ (Ne.symm hch),
      pyGet_append_other _ _ _ _ (Ne.symm hca)]

/-- Witness for C10 at a concrete cache, hash and result dict that itself contains a
stale `cached_at` entry: the cache's own `cached_at`/`cache_hash` win, other keys
are preserved. -/
theorem C10_get_after_set_witness :
    ((DeduplicationCache.set ⟨[], 0, 0⟩ "abc123" [("text", "t"), ("cached_at", "old")] "T").get
        "abc123").1 =
      some [("text", "t"), ("cached_at", "old"), ("cached_at", "T"), ("cache_hash", "abc123")]
    ∧ pyGet [("text", "t"), ("cached_at", "old"), ("cached_at", "T"), ("cache_hash", "abc123")]
        "cached_at" = some "T"
    ∧ pyGet [("text", "t"), ("cached_at", "old"), ("cached_at", "T"), ("cache_hash", "abc123")]
        "text" = pyGet [("text", "t"), ("cached_at", "old")] "text" := by
  have h := C10_get_after_set ⟨[], 0, 0⟩ "abc123" [("text", "t"), ("cached_at", "old")] "T"
  exact ⟨h.1, h.2.2.2.1, h.2.2.2.2 "text" (by decide) (by decide)⟩

/-- The hex digest has two characters per byte. -/
theorem hexdigest_length (bytes : List ℕ) : (hexdigest bytes).length = 2 * bytes.length := by
  induction bytes with
  | nil => rfl
  | cons b t ih =>
    unfold hexdigest at ih ⊢
    simp only [List.map_cons, List.flatten_cons, List.length_append, List.length_cons,
      List.length_nil, ih]
    omega

/-- The SHA-256 digest is 32 bytes long. -/
theorem sha256Bytes_length (msg : List ℕ) : (sha256Bytes msg).length = 32 := by
  unfold sha256Bytes wordBytes
  simp

/-- C8: `compute_hash` returns the 16-character (16-byte) prefix of the SHA-256
hexadecimal digest of the input bytes — appending the dropped remainder of the digest
recovers the full digest — and equal byte sequences always hash to the same value. -/
theorem C8_hash_prefix_deterministic (image_data : List ℕ) :
    (compute_hash image_data).length = 16
    ∧ (compute_hash image_data).data ++ (hexdigest (sha256Bytes image_data)).drop 16 =
        hexdigest (sha256Bytes image_data)
    ∧ ∀ other : List ℕ, image_data = other → compute_hash image_data = compute_hash other := by
  have hlen : (hexdigest (sha256Bytes image_data)).length = 64 := by
    rw [hexdigest_length, sha256Bytes_length]
  refine ⟨?_, ?_, ?_⟩
  · show ((hexdigest (sha256Bytes image_data)).take 16).length = 16
    rw [List.length_take, hlen]
    rfl
  · exact List.take_append_drop 16 _
  · intro other hother
    rw [hother]

set_option maxRecDepth 200000 in
/-- Witness for C8 at the bytes of `"abc"`: the hash is the first 16 hex characters
of the standard digest `ba7816bf8f01cfea414140de...`, and hashing the same bytes
again gives the same value. -/
theorem C8_hash_witness :
    compute_hash [97, 98, 99] = compute_hash [97, 98, 99]
    ∧ compute_hash [97, 98, 99] = "ba7816bf8f01cfea" :=
  ⟨(C8_hash_prefix_deterministic [97, 98, 99]).2.2 [97, 98, 99] rfl, by decide⟩

/-- Witness for C7 at a single pixel of value 140: mean 140 > 135, level `⌊24⌋ = 24`. -/
theorem C7_amended_witness :
    yellowingCheck [140] =
      (true, ["Paper yellowing (level: " ++ toString ⌊(channelMean [140] - 128) * 2⌋ ++ ")"])
    ∧ yellowingCheck [140] = (true, ["Paper yellowing (level: 24)"]) := by
  have hmean : channelMean [140] = 140 := by
    unfold channelMean
    norm_num
  have h := (C7_amended [140]).1 (by rw [hmean]; norm_num)
  refine ⟨h, ?_⟩
  rw [h, hmean]
  have h24 : ((140 : ℚ) - 128) * 2 = 24 := by norm_num
  rw [h24]
  have hfl : ⌊(24 : ℚ)⌋ = 24 := by norm_num
  rw [hfl]
  rfl

end Nhaka
